import Mathlib

/-!
Shallow embedding of the odooRest integration shim (src/odooRest/odoo_utils.py
and src/odooRest/decorators.py): JSON-like Python values, the three HTTP helper
functions, and the two execution strategies of the `odoo_method` decorator.
The HTTP transport is modelled as an input (`HttpOutcome`): the server response,
or a network failure, for each request the code issues.
-/

namespace OdooRest

/-- JSON-like Python values as they flow through the shim.  `record` models an
ORM value carrying a `_name` attribute (a many2one record), `recordset` a
`models.BaseModel` recordset given as (id, optional name, model) triples, `dt`
a `datetime`/`date` carrying its `isoformat()` string, `callable` an opaque
Python callable identified by a numeric tag, `bytes` a bytes/bytearray value. -/
inductive Val where
  | null
  | bool (b : Bool)
  | int (n : Int)
  | str (s : String)
  | bytes (bs : List Nat)
  | dt (iso : String)
  | record (rid : Int) (rname : Option String) (rmodel : String)
  | recordset (rs : List (Int × Option String × String))
  | callable (tag : Nat)
  | list (xs : List Val)
  | dict (kvs : List (String × Val))

instance : Inhabited Val := ⟨Val.null⟩

/-- Python truthiness of a `Val` (`bool(v)`). -/
def truthy : Val → Bool
  | .null => false
  | .bool b => b
  | .int n => n != 0
  | .str s => s != ""
  | .bytes bs => !bs.isEmpty
  | .dt _ => true
  | .record _ _ _ => true
  | .recordset rs => !rs.isEmpty
  | .callable _ => true
  | .list xs => !xs.isEmpty
  | .dict kvs => !kvs.isEmpty

/-- First-match lookup in an association list (Python dict access). -/
def lookupKV (kvs : List (String × Val)) (k : String) : Option Val :=
  match kvs with
  | [] => none
  | (k1, v) :: rest => if k1 = k then some v else lookupKV rest k

/-- `d.get(k, default)` on a dict value; on a non-dict the shim only ever calls
this on dicts, so the default is returned. -/
def Val.getD (v : Val) (k : String) (d : Val) : Val :=
  match v with
  | .dict kvs => (lookupKV kvs k).getD d
  | _ => d

/-- `d[k] = v`: replace the first binding of `k`, or append it. -/
def setKV (kvs : List (String × Val)) (k : String) (v : Val) : List (String × Val) :=
  match kvs with
  | [] => [(k, v)]
  | (k1, v1) :: rest => if k1 = k then (k1, v) :: rest else (k1, v1) :: setKV rest k v

/-- `d.pop(k, None)`, the removal part: drop every binding of `k`. -/
def removeKV (kvs : List (String × Val)) (k : String) : List (String × Val) :=
  kvs.filter (fun p => p.1 != k)

/-- `{**a, **b}`: right-biased dict merge. -/
def mergeKV (a b : List (String × Val)) : List (String × Val) :=
  b.foldl (fun acc p => setKV acc p.1 p.2) a

/-- Python exceptions that the shim raises or handles, with their `str(e)`
payload.  `unboundLocal n` is the `UnboundLocalError` raised when a local
variable `n` is referenced before assignment; `requestException` covers
`requests.RequestException` (network and HTTP-status errors). -/
inductive PyExc where
  | userError (msg : String)
  | validationError (msg : String)
  | accessError (msg : String)
  | valueError (msg : String)
  | typeError (msg : String)
  | attributeError (msg : String)
  | unboundLocal (name : String)
  | requestException (msg : String)
  | runtimeError (msg : String)

/-- The three business-rule exception classes named in
`except (UserError, ValidationError, AccessError)`. -/
def PyExc.isBusiness : PyExc → Bool
  | .userError _ | .validationError _ | .accessError _ => true
  | _ => false

/-- `str(e)` for the modelled exceptions. -/
def PyExc.message : PyExc → String
  | .userError m => m
  | .validationError m => m
  | .accessError m => m
  | .valueError m => m
  | .typeError m => m
  | .attributeError m => m
  | .unboundLocal n => "local variable " ++ n ++ " referenced before assignment"
  | .requestException m => m
  | .runtimeError m => m

/-- Result of running a fragment of Python code: a value, or a raised
exception propagating out of it. -/
inductive PyResult (α : Type) where
  | ok (v : α)
  | raised (e : PyExc)

/-- A parsed HTTP response from the remote server: status code, JSON body and
response cookies. -/
structure HttpRespModel where
  status : Nat
  body : Val
  cookies : List (String × String)

/-- What the transport does with one HTTP request: deliver a response, or fail
with a network error (`requests.RequestException` carrying `msg`). -/
inductive HttpOutcome where
  | ok (r : HttpRespModel)
  | netError (msg : String)

/-- The `{"error": msg}` payloads the shim builds. -/
def errDict (msg : String) : Val := .dict [("error", .str msg)]

/-- Message of the `requests.HTTPError` that `raise_for_status()` raises for a
4xx/5xx status (the exact text is cosmetic; only the class matters). -/
def httpStatusMsg (status : Nat) : String := "HTTP error " ++ toString status

/-- First-match lookup in a string association list (cookie jars). -/
def lookupStr (cs : List (String × String)) (k : String) : Option String :=
  match cs with
  | [] => none
  | (k1, v) :: rest => if k1 = k then some v else lookupStr rest k

/-- `response.cookies.get_dict()` as a JSON dict. -/
def cookiesDict (cs : List (String × String)) : Val :=
  .dict (cs.map fun p => (p.1, .str p.2))

/-! ### odoo_utils.py -/

/-- URL that `authenticate` posts to. -/
def authUrl (odoo_url : String) : String := odoo_url ++ "/web/session/authenticate"

/-- JSON-RPC envelope that `authenticate` posts. -/
def authPayload (db login password : String) : Val :=
  .dict [("jsonrpc", .str "2.0"), ("method", .str "call"),
         ("params", .dict [("db", .str db), ("login", .str login),
                           ("password", .str password)])]

/-- `authenticate(odoo_url, odoo_db, username, password)` given the outcome of
its single `requests.post`.  `raise_for_status` failures are
`requests.RequestException`s, hence caught by the same handler as network
errors. -/
def authenticate (odoo_url odoo_db username password : String)
    (outcome : HttpOutcome) : Val :=
  match outcome with
  | .netError m => errDict ("Network error: " ++ m)
  | .ok r =>
    if 400 ≤ r.status then errDict ("Network error: " ++ httpStatusMsg r.status)
    else
      if truthy (Val.getD r.body "result" .null) then
        match lookupStr r.cookies "session_id" with
        | none => errDict "No session ID found in the response cookies."
        | some sid =>
          if sid = "" then errDict "No session ID found in the response cookies."
          else
            .dict [("uid", Val.getD (Val.getD r.body "result" .null) "uid" .null),
                   ("session_id", .str sid),
                   ("cookies", cookiesDict r.cookies)]
      else errDict "Authentication failed."

/-- URL that `call_odoo` posts to. -/
def callOdooUrl (base_url : String) : String := base_url ++ "/web/dataset/call_kw"

/-- JSON-RPC envelope that `call_odoo` posts: note that `args` and `kwargs`
are rebuilt from the `domain` / `fields` / `limit` keys of `params`, whatever
shape `params` actually has. -/
def callOdooPayload (model method : String) (params : Val) : Val :=
  .dict [("jsonrpc", .str "2.0"), ("method", .str "call"),
    ("params", .dict [("model", .str model), ("method", .str method),
      ("args", .list [Val.getD params "domain" (.list [])]),
      ("kwargs", .dict [("fields", Val.getD params "fields" (.list [])),
                        ("limit", Val.getD params "limit" .null)])])]

/-- `call_odoo(session_id, base_url, model, method, params)` given the outcome
of its `requests.post`.  The session id and base url only shape the request
(see `callOdooUrl` / cookie header), not the result handling. -/
def call_odoo (session_id : String) (base_url : Val) (model method : String)
    (params : Val) (outcome : HttpOutcome) : Val :=
  match outcome with
  | .netError m => errDict ("Network error: " ++ m)
  | .ok r =>
    if 400 ≤ r.status then errDict ("Network error: " ++ httpStatusMsg r.status)
    else
      match r.body with
      | .dict kvs =>
        match lookupKV kvs "result" with
        | some v => v
        | none => errDict "Failed to fetch data"
      | _ => errDict "Failed to fetch data"

/-- The four HTTP verbs `odoo_request` dispatches on. -/
def httpVerbs : List String := ["GET", "POST", "PUT", "DELETE"]

/-- Truthiness of `session_id` (`if session_id:`): `None` and `""` are falsy. -/
def truthyOpt : Option String → Bool
  | none => false
  | some s => s != ""

/-- Output of `odoo_request`: its Python result (value or raised exception)
together with the list of URLs it actually issued an HTTP request to. -/
structure ReqOut where
  result : PyResult Val
  requested : List String

/-- `odoo_request(endpoint, base_url, method, data, session_id)` given the
outcome of the single HTTP request it may issue.  There is no try/except in
the source: `raise_for_status` and transport errors propagate.  In the falsy
`session_id` branch the local `url` is never assigned, so the verb dispatch
raises `UnboundLocalError` before any request. -/
def odoo_request (endpoint base_url method : String) (data : Val)
    (session_id : Option String) (outcome : HttpOutcome) : ReqOut :=
  if truthyOpt session_id then
    let url := base_url ++ "/api/" ++ endpoint
    if method ∈ httpVerbs then
      match outcome with
      | .netError m => ⟨.raised (.requestException m), [url]⟩
      | .ok r =>
        if 400 ≤ r.status then ⟨.raised (.requestException (httpStatusMsg r.status)), [url]⟩
        else ⟨.ok r.body, [url]⟩
    else ⟨.raised (.valueError ("Unsupported HTTP method: " ++ method)), []⟩
  else
    if method ∈ httpVerbs then ⟨.raised (.unboundLocal "url"), []⟩
    else ⟨.raised (.valueError ("Unsupported HTTP method: " ++ method)), []⟩

/-! ### decorators.py: shared helpers -/

/-- The base64 alphabet. -/
def b64chars : List Char :=
  "ABCDEFGHIJKLMNOPQRSTUVWXYZabcdefghijklmnopqrstuvwxyz0123456789+/".toList

/-- Character at index `n` of the base64 alphabet. -/
def b64char (n : Nat) : Char := b64chars.getD n 'A'

/-- Standard base64 of a byte list, three bytes to four characters with `=`
padding (the behaviour of `base64.b64encode(...).decode("utf-8")`). -/
def b64chunks : List Nat → List Char
  | [] => []
  | [a] => [b64char (a % 256 / 4), b64char (a % 4 * 16), '=', '=']
  | [a, b] => [b64char (a % 256 / 4), b64char (a % 4 * 16 + b % 256 / 16),
               b64char (b % 16 * 4), '=']
  | a :: b :: c :: rest =>
      b64char (a % 256 / 4) :: b64char (a % 4 * 16 + b % 256 / 16) ::
      b64char (b % 16 * 4 + c % 256 / 64) :: b64char (c % 64) :: b64chunks rest

/-- `base64.b64encode(bs).decode("utf-8")`. -/
def b64encode (bs : List Nat) : String := String.mk (b64chunks bs)

/-- Does the needle occur at the head of the haystack (character lists)? -/
def subAt : List Char → List Char → Bool
  | [], _ => true
  | _ :: _, [] => false
  | a :: ns, b :: hs => a == b && subAt ns hs

/-- Does the needle occur anywhere in the haystack (character lists)? -/
def hasSub (n : List Char) : List Char → Bool
  | [] => subAt n []
  | b :: hs => subAt n (b :: hs) || hasSub n hs

/-- Python substring test `needle in hay` on strings. -/
def strContainsSub (needle hay : String) : Bool := hasSub needle.toList hay.toList

/-- One step of the `image_fields = [field for field in fields if "image" in
field]` comprehension; a non-string element makes `"image" in field` raise
`TypeError`. -/
def imageFieldStep (v : Val) (acc : PyResult (List String)) : PyResult (List String) :=
  match acc with
  | .raised e => .raised e
  | .ok l =>
    match v with
    | .str s => .ok (if strContainsSub "image" s then s :: l else l)
    | _ => .raised (.typeError "argument of type is not iterable")

/-- The `image_fields` list computed by `handle_images_in_result`; iterating a
non-list `fields` value is modelled as a `TypeError`. -/
def imageFieldsOf (fields : Val) : PyResult (List String) :=
  match fields with
  | .list xs => xs.foldr imageFieldStep (.ok [])
  | _ => .raised (.typeError "object is not iterable")

/-- Error-propagating left fold (a Python `for` loop whose body may raise). -/
def pyFoldM {α β : Type} (f : β → α → PyResult β) : β → List α → PyResult β
  | b, [] => .ok b
  | b, a :: rest =>
    match f b a with
    | .raised e => .raised e
    | .ok b1 => pyFoldM f b1 rest

/-- Body of the first loop of `handle_images_in_result` for one record and one
image field: `if field in record and record[field]: record[field] =
base64.b64encode(record[field]).decode("utf-8")`.  `b64encode` on a non-bytes
value raises `TypeError`. -/
def encodeImageField (record : List (String × Val)) (f : String) :
    PyResult (List (String × Val)) :=
  match lookupKV record f with
  | none => .ok record
  | some v =>
    if truthy v then
      match v with
      | .bytes bs => .ok (setKV record f (.str (b64encode bs)))
      | _ => .raised (.typeError "a bytes-like object is required")
    else .ok record

/-- Second loop of `handle_images_in_result` for one record: every
`datetime`/`date` value is replaced by its `isoformat()` string. -/
def dtConvertRecord (record : List (String × Val)) : List (String × Val) :=
  record.map fun p =>
    match p.2 with
    | .dt iso => (p.1, .str iso)
    | v => (p.1, v)

/-- First loop of `handle_images_in_result` over all records.  A non-dict
record raises when there is an image field to test for membership. -/
def handleImagesLoop1 (imgs : List String) : List Val → PyResult (List Val)
  | [] => .ok []
  | r :: rest =>
    match r with
    | .dict kvs =>
      match pyFoldM encodeImageField kvs imgs with
      | .raised e => .raised e
      | .ok kvs1 =>
        match handleImagesLoop1 imgs rest with
        | .raised e => .raised e
        | .ok rs => .ok (.dict kvs1 :: rs)
    | v =>
      if imgs.isEmpty then
        match handleImagesLoop1 imgs rest with
        | .raised e => .raised e
        | .ok rs => .ok (v :: rs)
      else .raised (.typeError "argument of type is not iterable")

/-- Second loop of `handle_images_in_result` over all records; `record.items()`
on a non-dict raises. -/
def handleImagesLoop2 : List Val → PyResult (List Val)
  | [] => .ok []
  | r :: rest =>
    match r with
    | .dict kvs =>
      match handleImagesLoop2 rest with
      | .raised e => .raised e
      | .ok rs => .ok (.dict (dtConvertRecord kvs) :: rs)
    | _ => .raised (.attributeError "object has no attribute items")

/-- `handle_images_in_result(result, fields)`: a dict result is wrapped into a
one-element list, fields whose name contains `"image"` get their truthy values
base64-encoded, and datetime/date values are iso-formatted. -/
def handle_images_in_result (result : Val) (fields : Val) : PyResult Val :=
  let result1 :=
    match result with
    | .dict kvs => Val.list [.dict kvs]
    | v => v
  match imageFieldsOf fields with
  | .raised e => .raised e
  | .ok imgs =>
    match result1 with
    | .list recs =>
      match handleImagesLoop1 imgs recs with
      | .raised e => .raised e
      | .ok recs1 =>
        match handleImagesLoop2 recs1 with
        | .raised e => .raised e
        | .ok recs2 => .ok (.list recs2)
    | _ => .raised (.typeError "object is not iterable")

/-- `_convert_field_value(value)`: a value with `_name` (many2one) becomes
`{id, name, model}`, a `models.BaseModel` recordset a list of such dicts,
datetime/date its isoformat string, bytes/bytearray its base64 text; anything
else passes through. -/
def convert_field_value : Val → Val
  | .record rid rname rmodel =>
      .dict [("id", .int rid),
             ("name", .str (match rname with | some n => n | none => toString rid)),
             ("model", .str rmodel)]
  | .recordset rs =>
      .list (rs.map fun t =>
        .dict [("id", .int t.1),
               ("name", .str (match t.2.1 with | some n => n | none => toString t.1)),
               ("model", .str t.2.2)])
  | .dt iso => .str iso
  | .bytes bs => .str (b64encode bs)
  | v => v

/-- An ORM record as seen by `_prepare_record_data`: its id and its `_fields`
with their current values. -/
structure RecordData where
  rid : Int
  rfields : List (String × Val)

/-- Elements of a list value that are strings (field-name lists). -/
def valStrList : Val → List String
  | .list xs => xs.filterMap fun v => match v with | .str s => some s | _ => none
  | _ => []

/-- `_prepare_record_data(record, fields_or_params)`: start from
`{"id": record.id}` and add `_convert_field_value` of each requested field
that exists on the record; a dict argument contributes its keys, a falsy
argument means all of the record's fields. -/
def prepare_record_data (record : RecordData) (fieldsOrParams : Val) : Val :=
  let fields : List String :=
    match fieldsOrParams with
    | .dict kvs => kvs.map Prod.fst
    | v => if truthy v then valStrList v else record.rfields.map Prod.fst
  .dict (fields.foldl
    (fun acc f =>
      match lookupKV record.rfields f with
      | some v => setKV acc f (convert_field_value v)
      | none => acc)
    [("id", .int record.rid)])

/-! ### decorators.py: the odoo_method wrappers -/

/-- Status, body and logged-flag produced by the shared
`except (UserError, ValidationError, AccessError) / except Exception`
handlers: business-rule errors give 400 with `str(e)` and no log; anything
else gives 500 with `str(e)` after printing the stack trace. -/
def excResponse (e : PyExc) : Nat × Val × Bool :=
  if e.isBusiness then (400, errDict e.message, false)
  else (500, errDict e.message, true)

/-- What a wrapper hands back: an HTTP response with a status and JSON body,
or the raw object returned by a `custom_response` hook. -/
inductive RespModel where
  | http (status : Nat) (body : Val)
  | custom (v : Val)

/-- Output of a Django-path wrapped endpoint: the response, the list of
`call_odoo(session, base_url, model, method, params)` invocations it made
(model, method, params), whether the decorated handler body ran, and whether a
stack trace was logged. -/
structure DjOut where
  resp : RespModel
  calls : List (String × String × Val)
  handlerCalled : Bool
  logged : Bool

/-- `UniversalConnector.get_session` on the Django path:
`request.COOKIES.get("session_id")`. -/
def getSessionDjango (cookies : List (String × String)) : Option String :=
  lookupStr cookies "session_id"

/-- Is a value a Python callable (`callable(x)`)? -/
def isCallableV : Val → Bool
  | .callable _ => true
  | _ => false

/-- Tag of a callable value (irrelevant default otherwise). -/
def callableTag : Val → Nat
  | .callable i => i
  | _ => 0

/-- The empty JSON list (default for missing `domain` / `fields` / `ids`). -/
def emptyList : Val := .list []

/-- Parameter structuring of the Django wrapper for the non-create methods:
`search_read` forwards `domain`, `fields` and `limit` (not offset or order),
`read` forwards `ids` and `fields`, `write` forwards `ids` and `values`,
`unlink` forwards `ids`.  For any other method name no branch assigns
`params`, modelled as `none` (the later use raises `UnboundLocalError`). -/
def djangoStructureParams (method : String) (ap : Val) : Option Val :=
  if method = "search_read" then
    some (.dict [("args", .list [Val.getD ap "domain" emptyList]),
                 ("kwargs", .dict [("fields", Val.getD ap "fields" emptyList),
                                   ("limit", Val.getD ap "limit" .null)])])
  else if method = "read" then
    some (.dict [("args", .list [Val.getD ap "ids" emptyList]),
                 ("kwargs", .dict [("fields", Val.getD ap "fields" emptyList)])])
  else if method = "write" then
    some (.dict [("args", .list [Val.getD ap "ids" emptyList,
                                 Val.getD ap "values" (.dict [])]),
                 ("kwargs", .dict [])])
  else if method = "unlink" then
    some (.dict [("args", .list [Val.getD ap "ids" emptyList]),
                 ("kwargs", .dict [])])
  else none

/-- `DjOut` for one of the two `except` clauses firing with exception `e`. -/
def respOfExc (e : PyExc) (calls : List (String × String × Val)) (hc : Bool) : DjOut :=
  ⟨.http (excResponse e).1 (excResponse e).2.1, calls, hc, (excResponse e).2.2⟩

/-- The handler-returned dict after the three `pop` calls removed the system
parameters `base_url`, `custom_response` and `after_execution`. -/
def popSystemKeys (kvs : List (String × Val)) : List (String × Val) :=
  removeKV (removeKV (removeKV kvs "base_url") "custom_response") "after_execution"

/-- The `create_params` dict of the Django create branch: the values dict as
the single positional argument, empty kwargs. -/
def createParamsOf (apc : List (String × Val)) : Val :=
  .dict [("args", .list [.dict apc]), ("kwargs", .dict [])]

/-- The `read_params` dict of the Django create branch: the created id as the
single positional argument, and `fields` the keys of the submitted values. -/
def readParamsOf (created : Val) (apc : List (String × Val)) : Val :=
  .dict [("args", .list [.list [created]]),
         ("kwargs", .dict [("fields", .list (apc.map fun p => Val.str p.1))])]

/-- Body of the Django wrapper after the session check succeeded with `sid`
and the handler returned the dict `kvs`.  `tr n` is the outcome of the n-th
HTTP request issued through `call_odoo`; `hooks` gives the semantics of
applying a callable hook value (by tag) to `(result, params)`. -/
def djangoCore (model method sid : String) (kvs : List (String × Val))
    (tr : Nat → HttpOutcome) (hooks : Nat → Val → Val → Val) : DjOut :=
  let baseUrl := (lookupKV kvs "base_url").getD .null
  let customResp := (lookupKV (removeKV kvs "base_url") "custom_response").getD .null
  let afterExec :=
    (lookupKV (removeKV (removeKV kvs "base_url") "custom_response") "after_execution").getD .null
  let apc := popSystemKeys kvs
  if method = "create" then
    let createParams := createParamsOf apc
    let result0 := call_odoo sid baseUrl model method createParams (tr 0)
    if truthy result0 then
      let readParams := readParamsOf result0 apc
      let readResult := call_odoo sid baseUrl model "read" readParams (tr 1)
      let calls2 := [(model, method, createParams), (model, "read", readParams)]
      let result1 :=
        match readResult with
        | .list (x :: _) => x
        | _ => result0
      if isCallableV afterExec then respOfExc (.unboundLocal "params") calls2 true
      else if isCallableV customResp then respOfExc (.unboundLocal "params") calls2 true
      else ⟨.http 200 result1, calls2, true, false⟩
    else
      let calls1 := [(model, method, createParams)]
      if isCallableV afterExec then respOfExc (.unboundLocal "params") calls1 true
      else if isCallableV customResp then respOfExc (.unboundLocal "params") calls1 true
      else ⟨.http 200 result0, calls1, true, false⟩
  else
    match djangoStructureParams method (.dict apc) with
    | none => respOfExc (.unboundLocal "params") [] true
    | some params =>
      let result0 := call_odoo sid baseUrl model method params (tr 0)
      let result1 :=
        if isCallableV afterExec then hooks (callableTag afterExec) result0 params
        else result0
      if isCallableV customResp then
        ⟨.custom (hooks (callableTag customResp) result1 params),
         [(model, method, params)], true, false⟩
      else ⟨.http 200 result1, [(model, method, params)], true, false⟩

/-- The Django-path wrapper produced by `odoo_method(model, method)`: check
the `session_id` cookie (401 if missing or empty), run the decorated handler
(`handlerResult`), structure the parameters and call the remote server,
mapping raised exceptions through the two `except` clauses. -/
def djangoWrapper (model method : String) (cookies : List (String × String))
    (handlerResult : PyResult Val) (tr : Nat → HttpOutcome)
    (hooks : Nat → Val → Val → Val) : DjOut :=
  match getSessionDjango cookies with
  | none => ⟨.http 401 (errDict "Odoo session not provided."), [], false, false⟩
  | some sid =>
    if sid = "" then ⟨.http 401 (errDict "Odoo session not provided."), [], false, false⟩
    else
      match handlerResult with
      | .raised e => respOfExc e [] true
      | .ok (.dict kvs) => djangoCore model method sid kvs tr hooks
      | .ok _ => respOfExc (.attributeError "object has no attribute pop") [] true

/-- The in-process ORM environment `request.env[model].sudo()`, abstracted as
the operations the wrapper invokes on it.  `existsFn ids` is the truthiness of
`env.browse(ids).exists()`, `browseFn ids` the browsed record handed to
`_prepare_record_data`, `genericFn` the `getattr(env, method)(**params)`
dispatch. -/
structure OrmEnv where
  createFn : Val → PyResult RecordData
  existsFn : Val → Bool
  browseFn : Val → RecordData
  writeFn : Val → Val → PyResult Val
  unlinkFn : Val → PyResult Val
  searchReadFn : Val → Val → Val → Val → Val → PyResult Val
  searchCountFn : Val → PyResult Val
  readFn : Val → Val → PyResult Val
  genericFn : String → Val → PyResult Val

/-- The method dispatch of the in-process wrapper (the if/elif chain on
`method`): create / write / unlink / search_read / read, and generic
`getattr` dispatch for every other method name. -/
def inprocDispatch (env : OrmEnv) (method : String) (params : Val) : PyResult Val :=
  if method = "create" then
    match env.createFn params with
    | .raised e => .raised e
    | .ok record => .ok (prepare_record_data record params)
  else if method = "write" then
    let ids := Val.getD params "ids" .null
    if env.existsFn ids = false then
      .raised (.validationError "No records found with the given ids")
    else
      match env.writeFn ids (Val.getD params "values" .null) with
      | .raised e => .raised e
      | .ok result =>
        if truthy result then
          .ok (prepare_record_data (env.browseFn ids) (Val.getD params "fields" emptyList))
        else .ok result
  else if method = "unlink" then
    let ids := Val.getD params "ids" .null
    if env.existsFn ids = false then
      .raised (.validationError "No records found with the given ids")
    else
      match env.unlinkFn ids with
      | .raised e => .raised e
      | .ok result =>
        .ok (.dict [("success", .bool (truthy result)), ("deleted_ids", ids)])
  else if method = "search_read" then
    let domain := Val.getD params "domain" emptyList
    let fields := Val.getD params "fields" emptyList
    let offset := Val.getD params "offset" (.int 0)
    let limit := Val.getD params "limit" .null
    let order := Val.getD params "order" .null
    match env.searchReadFn domain fields offset limit order with
    | .raised e => .raised e
    | .ok result =>
      if truthy limit then
        match env.searchCountFn domain with
        | .raised e => .raised e
        | .ok total =>
          .ok (.dict [("records", result), ("total_count", total),
                      ("limit", limit), ("offset", offset)])
      else .ok result
  else if method = "read" then
    let ids := Val.getD params "ids" .null
    if env.existsFn ids = false then
      .raised (.validationError "No records found with the given ids")
    else env.readFn ids (Val.getD params "fields" emptyList)
  else
    env.genericFn method params

/-- Output of an in-process wrapped endpoint: the response and whether a stack
trace was logged. -/
structure InOut where
  resp : RespModel
  logged : Bool

mutual

/-- Is a value accepted by `json.dumps`?  Bytes, datetime/date, records and
callables are not JSON serializable; `json.dumps` raises `TypeError` on them
(inside the wrapper's try block, so it is caught by `except Exception`). -/
def jsonOk : Val → Bool
  | .null => true
  | .bool _ => true
  | .int _ => true
  | .str _ => true
  | .bytes _ => false
  | .dt _ => false
  | .record _ _ _ => false
  | .recordset _ => false
  | .callable _ => false
  | .list xs => jsonOkList xs
  | .dict kvs => jsonOkKVs kvs

def jsonOkList : List Val → Bool
  | [] => true
  | v :: vs => jsonOk v && jsonOkList vs

def jsonOkKVs : List (String × Val) → Bool
  | [] => true
  | (_, v) :: ps => jsonOk v && jsonOkKVs ps

end

/-- The in-process wrapper produced by `odoo_method(model, method)`: merge the
handler result with the route kwargs, dispatch on the method, shape the result
with `handle_images_in_result`, apply the optional hooks, and map raised
exceptions through the two `except` clauses.  `http.Response` without an
explicit status defaults to 200. -/
def inprocWrapper (model method : String) (env : OrmEnv)
    (handlerResult : PyResult Val) (kw : List (String × Val))
    (hooks : Nat → Val → Val → Val) : InOut :=
  match handlerResult with
  | .raised e => ⟨.http (excResponse e).1 (excResponse e).2.1, (excResponse e).2.2⟩
  | .ok (.dict apk) =>
    let params := Val.dict (mergeKV apk kw)
    match inprocDispatch env method params with
    | .raised e => ⟨.http (excResponse e).1 (excResponse e).2.1, (excResponse e).2.2⟩
    | .ok result0 =>
      match handle_images_in_result result0 (Val.getD params "fields" emptyList) with
      | .raised e => ⟨.http (excResponse e).1 (excResponse e).2.1, (excResponse e).2.2⟩
      | .ok result1 =>
        let afterExec := Val.getD params "after_execution" .null
        let result2 :=
          if isCallableV afterExec then hooks (callableTag afterExec) result1 params
          else result1
        let customResp := Val.getD params "custom_response" .null
        if isCallableV customResp then
          ⟨.custom (hooks (callableTag customResp) result2 params), false⟩
        else if jsonOk result2 then ⟨.http 200 result2, false⟩
        else
          let e := PyExc.typeError "Object is not JSON serializable"
          ⟨.http (excResponse e).1 (excResponse e).2.1, (excResponse e).2.2⟩
  | .ok _ =>
    let e := PyExc.typeError "argument after must be a mapping"
    ⟨.http (excResponse e).1 (excResponse e).2.1, (excResponse e).2.2⟩

/-- A trivial concrete environment, the base for building test environments in
concrete evaluations. -/
def baseEnv : OrmEnv where
  createFn := fun _ => .ok ⟨1, []⟩
  existsFn := fun _ => true
  browseFn := fun _ => ⟨1, []⟩
  writeFn := fun _ _ => .ok (.bool true)
  unlinkFn := fun _ => .ok (.bool true)
  searchReadFn := fun _ _ _ _ _ => .ok (.list [])
  searchCountFn := fun _ => .ok (.int 0)
  readFn := fun _ _ => .ok (.list [])
  genericFn := fun _ _ => .ok .null

/-! ### Theorems about the claims -/

/-- Claim C1: the claim says that for a decorated Django-path endpoint the
posted JSON-RPC envelope carries exactly the positional args and keyword
kwargs the decorator structured (for read: `args = [ids]`, `kwargs` with
`fields`).  The code does not: the decorator structures `{"args": [[5]],
"kwargs": {"fields": ["name"]}}` for a read of ids `[5]`, but `call_odoo`
rebuilds the envelope from the (absent) `domain` / `fields` / `limit` keys of
that dict, so it posts `args = [[]]` and `kwargs = {"fields": [],
"limit": null}` instead. -/
theorem C1_call_odoo_ignores_structured_args :
    djangoStructureParams "read"
        (.dict [("ids", .list [.int 5]), ("fields", .list [.str "name"])])
      = some (.dict [("args", .list [.list [.int 5]]),
                     ("kwargs", .dict [("fields", .list [.str "name"])])]) ∧
    Val.getD (Val.getD (callOdooPayload "res.partner" "read"
          (.dict [("args", .list [.list [.int 5]]),
                  ("kwargs", .dict [("fields", .list [.str "name"])])]))
        "params" .null) "args" .null
      = .list [.list []] ∧
    Val.getD (Val.getD (callOdooPayload "res.partner" "read"
          (.dict [("args", .list [.list [.int 5]]),
                  ("kwargs", .dict [("fields", .list [.str "name"])])]))
        "params" .null) "kwargs" .null
      = .dict [("fields", .list []), ("limit", .null)] ∧
    (Val.list [.list []]) ≠ .list [.list [.int 5]] := by
  refine ⟨rfl, rfl, rfl, fun h => ?_⟩
  simp at h

/-- Claim C5, counterexample: a network failure inside `odoo_request` is not
caught: with a valid session and a GET whose transport fails, the function
raises the `requests` exception instead of returning an `{"error": ...}`
dict. -/
theorem C5_counterexample_odoo_request_propagates :
    odoo_request "partners" "http://erp" "GET" .null (some "sid") (.netError "boom")
      = ⟨.raised (.requestException "boom"), ["http://erp/api/partners"]⟩ ∧
    (odoo_request "partners" "http://erp" "GET" .null (some "sid")
        (.netError "boom")).result ≠ .ok (errDict "Network error: boom") := by
  refine ⟨rfl, fun h => ?_⟩
  exact PyResult.noConfusion h

/-- Claim C5 (amended): network errors during `authenticate` and `call_odoo`
are caught and returned as a structured error dict, but `odoo_request` has no
try/except and propagates the raised exception to its caller. -/
theorem C5_amended_network_error_handling
    (u db lg pw sid ep base m meth model : String) (bu p d : Val) (msg : String)
    (hs : sid ≠ "") (hm : m ∈ httpVerbs) :
    authenticate u db lg pw (.netError msg) = errDict ("Network error: " ++ msg) ∧
    call_odoo sid bu model meth p (.netError msg)
      = errDict ("Network error: " ++ msg) ∧
    (odoo_request ep base m d (some sid) (.netError msg)).result
      = .raised (.requestException msg) := by
  refine ⟨rfl, rfl, ?_⟩
  simp [odoo_request, truthyOpt, hs, hm]

/-- Claim C5, witness for the amended theorem at concrete inputs. -/
theorem C5_amended_network_error_handling_witness :
    authenticate "http://erp" "db" "admin" "pw" (.netError "down")
      = errDict "Network error: down" ∧
    call_odoo "sid" (.str "http://erp") "res.partner" "read" (.dict [])
        (.netError "down") = errDict "Network error: down" ∧
    (odoo_request "partners" "http://erp" "GET" .null (some "sid")
        (.netError "down")).result = .raised (.requestException "down") :=
  C5_amended_network_error_handling "http://erp" "db" "admin" "pw" "sid" "partners"
    "http://erp" "GET" "read" "res.partner" (.str "http://erp") (.dict []) .null
    "down" (by decide) (by decide)

/-- Claim C8: a Django-path request whose cookies carry no `session_id` gets
HTTP 401 with the stated error body, no `call_odoo` invocation is made, and
the decorated handler body is never invoked. -/
theorem C8_session_required (model method : String) (cookies : List (String × String))
    (handlerResult : PyResult Val) (tr : Nat → HttpOutcome)
    (hooks : Nat → Val → Val → Val)
    (h : lookupStr cookies "session_id" = none) :
    djangoWrapper model method cookies handlerResult tr hooks
      = ⟨.http 401 (errDict "Odoo session not provided."), [], false, false⟩ := by
  unfold djangoWrapper getSessionDjango
  rw [h]

/-- Claim C8, witness at concrete inputs (an empty cookie jar). -/
theorem C8_session_required_witness :
    djangoWrapper "res.partner" "read" [] (.ok (.dict [])) (fun _ => .netError "x")
        (fun _ r _ => r)
      = ⟨.http 401 (errDict "Odoo session not provided."), [], false, false⟩ :=
  C8_session_required "res.partner" "read" [] (.ok (.dict []))
    (fun _ => .netError "x") (fun _ r _ => r) rfl

/-- Claim C10: with a falsy `session_id` (None or empty), `odoo_request`
issues no HTTP request at all, and for each of the four dispatched HTTP verbs
it raises `UnboundLocalError` on the never-assigned local `url`. -/
theorem C10_unbound_url_branch (ep base m : String) (d : Val) (sid : Option String)
    (oc : HttpOutcome) (h : truthyOpt sid = false) :
    (odoo_request ep base m d sid oc).requested = [] ∧
    (m ∈ httpVerbs →
      (odoo_request ep base m d sid oc).result = .raised (.unboundLocal "url")) := by
  constructor
  · by_cases hm : m ∈ httpVerbs <;> simp [odoo_request, h, hm]
  · intro hm
    simp [odoo_request, h, hm]

/-- Claim C10, witness: an unauthenticated GET. -/
theorem C10_unbound_url_branch_witness :
    (odoo_request "partners" "http://erp" "GET" .null none (.netError "x")).requested
      = [] ∧
    (odoo_request "partners" "http://erp" "GET" .null none (.netError "x")).result
      = .raised (.unboundLocal "url") := by
  have h := C10_unbound_url_branch "partners" "http://erp" "GET" .null none
    (.netError "x") (by decide)
  exact ⟨h.1, h.2 (by decide)⟩

/-- Claim C4: `authenticate` posts the JSON-RPC envelope
`{jsonrpc, method: "call", params: {db, login, password}}` to
`{odoo_url}/web/session/authenticate`; on a delivered response (status below
400) it returns `{"error": "Authentication failed."}` when the server result
is falsy, `{"error": "No session ID found in the response cookies."}` when no
`session_id` cookie came back, and `{uid, session_id, cookies}` when the
cookie is present (and nonempty). -/
theorem C4_authenticate_contract (u db lg pw : String) (r : HttpRespModel)
    (hs : r.status < 400) :
    authUrl u = u ++ "/web/session/authenticate" ∧
    authPayload db lg pw
      = .dict [("jsonrpc", .str "2.0"), ("method", .str "call"),
               ("params", .dict [("db", .str db), ("login", .str lg),
                                 ("password", .str pw)])] ∧
    (truthy (Val.getD r.body "result" .null) = false →
      authenticate u db lg pw (.ok r) = errDict "Authentication failed.") ∧
    (truthy (Val.getD r.body "result" .null) = true →
      (lookupStr r.cookies "session_id" = none →
        authenticate u db lg pw (.ok r)
          = errDict "No session ID found in the response cookies.") ∧
      (∀ sid, lookupStr r.cookies "session_id" = some sid → sid ≠ "" →
        authenticate u db lg pw (.ok r)
          = .dict [("uid", Val.getD (Val.getD r.body "result" .null) "uid" .null),
                   ("session_id", .str sid),
                   ("cookies", cookiesDict r.cookies)])) := by
  have hns : ¬ (400 ≤ r.status) := by omega
  refine ⟨rfl, rfl, ?_, ?_⟩
  · intro ht
    simp [authenticate, hns, ht]
  · intro ht
    constructor
    · intro hc
      simp [authenticate, hns, ht, hc]
    · intro sid hc hne
      simp [authenticate, hns, ht, hc, hne]

/-- Claim C4, witness: a successful login returning uid 2 and cookie `S`. -/
theorem C4_authenticate_contract_witness :
    authenticate "http://erp" "db" "admin" "pw"
        (.ok ⟨200, .dict [("result", .dict [("uid", .int 2)])], [("session_id", "S")]⟩)
      = .dict [("uid", .int 2), ("session_id", .str "S"),
               ("cookies", .dict [("session_id", .str "S")])] :=
  ((C4_authenticate_contract "http://erp" "db" "admin" "pw"
      ⟨200, .dict [("result", .dict [("uid", .int 2)])], [("session_id", "S")]⟩
      (by decide)).2.2.2 (by decide)).2 "S" rfl (by decide)

/-- Claim C3, counterexample: the 500 branch does not return a generic
message; it returns `str(e)`, so two different unexpected exceptions give two
different bodies (here the concrete body is the exception text `boom`). -/
theorem C3_counterexample_specific_500_message :
    djangoWrapper "res.partner" "read" [("session_id", "s")]
        (.raised (.runtimeError "boom")) (fun _ => .netError "x") (fun _ r _ => r)
      = ⟨.http 500 (errDict "boom"), [], true, true⟩ ∧
    errDict "boom" ≠ errDict "zap" := by
  refine ⟨rfl, fun h => ?_⟩
  simp [errDict] at h

/-- Claim C3 (amended): a raised `UserError`/`ValidationError`/`AccessError`
maps to HTTP 400 with the error message and no logging; any other exception
maps to HTTP 500 with the exception's own message (`str(e)`, not a generic
one) after logging the stack trace — in both wrapper strategies, whether the
handler body or the in-process dispatch raised. -/
theorem C3_amended_error_mapping (model meth : String)
    (cookies : List (String × String)) (sid : String) (e : PyExc)
    (tr : Nat → HttpOutcome) (hooks : Nat → Val → Val → Val) (env : OrmEnv)
    (apk kw : List (String × Val))
    (hlk : lookupStr cookies "session_id" = some sid) (hsid : sid ≠ "")
    (hd : inprocDispatch env meth (Val.dict (mergeKV apk kw)) = .raised e) :
    (e.isBusiness = true →
      djangoWrapper model meth cookies (.raised e) tr hooks
        = ⟨.http 400 (errDict e.message), [], true, false⟩ ∧
      inprocWrapper model meth env (.raised e) kw hooks
        = ⟨.http 400 (errDict e.message), false⟩ ∧
      inprocWrapper model meth env (.ok (.dict apk)) kw hooks
        = ⟨.http 400 (errDict e.message), false⟩) ∧
    (e.isBusiness = false →
      djangoWrapper model meth cookies (.raised e) tr hooks
        = ⟨.http 500 (errDict e.message), [], true, true⟩ ∧
      inprocWrapper model meth env (.raised e) kw hooks
        = ⟨.http 500 (errDict e.message), true⟩ ∧
      inprocWrapper model meth env (.ok (.dict apk)) kw hooks
        = ⟨.http 500 (errDict e.message), true⟩) := by
  constructor
  · intro hb
    refine ⟨?_, ?_, ?_⟩
    · unfold djangoWrapper getSessionDjango
      rw [hlk]
      simp [hsid, respOfExc, excResponse, hb]
    · simp [inprocWrapper, excResponse, hb]
    · simp [inprocWrapper, hd, excResponse, hb]
  · intro hb
    refine ⟨?_, ?_, ?_⟩
    · unfold djangoWrapper getSessionDjango
      rw [hlk]
      simp [hsid, respOfExc, excResponse, hb]
    · simp [inprocWrapper, excResponse, hb]
    · simp [inprocWrapper, hd, excResponse, hb]

/-- Claim C3, witness for the amended mapping: a `ValidationError` raised by
the in-process read dispatch surfaces as 400 with its message. -/
theorem C3_amended_error_mapping_witness :
    djangoWrapper "res.partner" "read" [("session_id", "s")]
        (.raised (.validationError "bad value")) (fun _ => .netError "x")
        (fun _ r _ => r)
      = ⟨.http 400 (errDict "bad value"), [], true, false⟩ ∧
    inprocWrapper "res.partner" "read"
        { baseEnv with readFn := fun _ _ => .raised (.validationError "bad value") }
        (.raised (.validationError "bad value")) [] (fun _ r _ => r)
      = ⟨.http 400 (errDict "bad value"), false⟩ ∧
    inprocWrapper "res.partner" "read"
        { baseEnv with readFn := fun _ _ => .raised (.validationError "bad value") }
        (.ok (.dict [])) [] (fun _ r _ => r)
      = ⟨.http 400 (errDict "bad value"), false⟩ :=
  (C3_amended_error_mapping "res.partner" "read" [("session_id", "s")] "s"
      (.validationError "bad value") (fun _ => .netError "x") (fun _ r _ => r)
      { baseEnv with readFn := fun _ _ => .raised (.validationError "bad value") }
      [] [] rfl (by decide) rfl).1 rfl

/-- Claim C2, counterexample: in the Django strategy a method name outside
the five (here `toggle_active`) is NOT dispatched generically: no branch
assigns `params`, the wrapper hits `UnboundLocalError` and returns HTTP 500
having made no remote call at all (empty call trace). -/
theorem C2_counterexample_no_generic_django :
    djangoWrapper "res.partner" "toggle_active" [("session_id", "s")]
        (.ok (.dict [("base_url", .str "http://erp")])) (fun _ => .netError "down")
        (fun _ r _ => r)
      = ⟨.http 500 (errDict "local variable params referenced before assignment"),
         [], true, true⟩ := by
  rfl

/-- Claim C2 (amended): the Django strategy structures parameters only for
create(values), search_read(domain, fields, limit), read(ids, fields),
write(ids, values) and unlink(ids), and any other method name gives HTTP 500
(unbound `params`) with no remote call; the in-process strategy handles the
five named methods (search_read with domain, fields, offset, limit, order)
and dispatches every other method name generically via `getattr`. -/
theorem C2_amended_method_support (env : OrmEnv) (ap params : Val) (m model : String)
    (cookies : List (String × String)) (sid : String) (kvs : List (String × Val))
    (tr : Nat → HttpOutcome) (hooks : Nat → Val → Val → Val)
    (hm : m ∉ ["create", "search_read", "read", "write", "unlink"])
    (hlk : lookupStr cookies "session_id" = some sid) (hsid : sid ≠ "")
    (hex : env.existsFn (Val.getD params "ids" .null) = true) :
    inprocDispatch env m params = env.genericFn m params ∧
    djangoStructureParams m ap = none ∧
    djangoWrapper model m cookies (.ok (.dict kvs)) tr hooks
      = ⟨.http 500 (errDict "local variable params referenced before assignment"),
         [], true, true⟩ ∧
    djangoStructureParams "search_read" ap
      = some (.dict [("args", .list [Val.getD ap "domain" emptyList]),
                     ("kwargs", .dict [("fields", Val.getD ap "fields" emptyList),
                                       ("limit", Val.getD ap "limit" .null)])]) ∧
    djangoStructureParams "read" ap
      = some (.dict [("args", .list [Val.getD ap "ids" emptyList]),
                     ("kwargs", .dict [("fields", Val.getD ap "fields" emptyList)])]) ∧
    djangoStructureParams "write" ap
      = some (.dict [("args", .list [Val.getD ap "ids" emptyList,
                                     Val.getD ap "values" (.dict [])]),
                     ("kwargs", .dict [])]) ∧
    djangoStructureParams "unlink" ap
      = some (.dict [("args", .list [Val.getD ap "ids" emptyList]),
                     ("kwargs", .dict [])]) ∧
    (∀ rec, env.createFn params = .ok rec →
      inprocDispatch env "create" params = .ok (prepare_record_data rec params)) ∧
    inprocDispatch env "read" params
      = env.readFn (Val.getD params "ids" .null)
          (Val.getD params "fields" emptyList) ∧
    (∀ e, env.writeFn (Val.getD params "ids" .null) (Val.getD params "values" .null)
        = .raised e → inprocDispatch env "write" params = .raised e) ∧
    (∀ u, env.unlinkFn (Val.getD params "ids" .null) = .ok u →
      inprocDispatch env "unlink" params
        = .ok (.dict [("success", .bool (truthy u)),
                      ("deleted_ids", Val.getD params "ids" .null)])) ∧
    (∀ e, env.searchReadFn (Val.getD params "domain" emptyList)
            (Val.getD params "fields" emptyList) (Val.getD params "offset" (.int 0))
            (Val.getD params "limit" .null) (Val.getD params "order" .null)
        = .raised e →
      inprocDispatch env "search_read" params = .raised e) := by
  simp only [List.mem_cons, List.not_mem_nil, or_false, not_or] at hm
  obtain ⟨h1, h2, h3, h4, h5⟩ := hm
  have hnone : djangoStructureParams m (.dict (popSystemKeys kvs)) = none := by
    simp [djangoStructureParams, h2, h3, h4, h5]
  refine ⟨?_, ?_, ?_, rfl, rfl, rfl, rfl, ?_, ?_, ?_, ?_, ?_⟩
  · simp [inprocDispatch, h1, h2, h3, h4, h5]
  · simp [djangoStructureParams, h2, h3, h4, h5]
  · simp [djangoWrapper, getSessionDjango, hlk, hsid, djangoCore, h1, hnone,
          respOfExc, excResponse, PyExc.isBusiness, PyExc.message]
  · intro rec hc
    simp [inprocDispatch, hc]
  · simp [inprocDispatch, hex]
  · intro e he
    simp [inprocDispatch, hex, he]
  · intro u hu
    simp [inprocDispatch, hex, hu]
  · intro e he
    simp [inprocDispatch, he]

/-- Claim C2, witness: `toggle_active` goes through generic dispatch
in-process and has no Django-path parameter structuring. -/
theorem C2_amended_method_support_witness :
    inprocDispatch baseEnv "toggle_active" (.dict [])
      = baseEnv.genericFn "toggle_active" (.dict []) ∧
    djangoStructureParams "toggle_active" (.dict []) = none := by
  have h := C2_amended_method_support baseEnv (.dict []) (.dict [])
    "toggle_active" "res.partner" [("session_id", "s")] "s" []
    (fun _ => .netError "x") (fun _ r _ => r) (by decide) rfl (by decide) rfl
  exact ⟨h.1, h.2.1⟩

/-- Claim C9: in the Django path, when the create call yields a truthy result
`r`, the wrapper issues a second `call_odoo` invocation — a read of `[[r]]`
whose `fields` are the keys of the submitted values dict (the handler dict
minus the popped system keys) — and the response body is the first element of
the read result when that result is a non-empty list, and the raw creation
result `r` otherwise.  (This is at the `call_odoo` invocation level; the wire
payload `call_odoo` then posts is a separate matter, see claim C1.) -/
theorem C9_create_then_read (model : String) (cookies : List (String × String))
    (sid : String) (kvs : List (String × Val)) (tr : Nat → HttpOutcome)
    (hooks : Nat → Val → Val → Val) (r : Val)
    (hlk : lookupStr cookies "session_id" = some sid) (hsid : sid ≠ "")
    (hae : isCallableV ((lookupKV (removeKV (removeKV kvs "base_url")
        "custom_response") "after_execution").getD .null) = false)
    (hcr : isCallableV ((lookupKV (removeKV kvs "base_url")
        "custom_response").getD .null) = false)
    (hr : call_odoo sid ((lookupKV kvs "base_url").getD .null) model "create"
        (createParamsOf (popSystemKeys kvs)) (tr 0) = r)
    (htr : truthy r = true) :
    djangoWrapper model "create" cookies (.ok (.dict kvs)) tr hooks
      = ⟨.http 200
           (match call_odoo sid ((lookupKV kvs "base_url").getD .null) model "read"
               (readParamsOf r (popSystemKeys kvs)) (tr 1) with
            | .list (x :: _) => x
            | _ => r),
         [(model, "create", createParamsOf (popSystemKeys kvs)),
          (model, "read", readParamsOf r (popSystemKeys kvs))],
         true, false⟩ := by
  simp [djangoWrapper, getSessionDjango, hlk, hsid, djangoCore, hr, htr, hae, hcr]

/-- Claim C9, witness: a create returning id 42 is followed by a read of
`[[42]]` with fields `["name"]`, and the read record becomes the body. -/
theorem C9_create_then_read_witness :
    djangoWrapper "res.partner" "create" [("session_id", "s")]
        (.ok (.dict [("base_url", .str "http://erp"), ("name", .str "Bob")]))
        (fun n => if n = 0 then .ok ⟨200, .dict [("result", .int 42)], []⟩
          else .ok ⟨200, .dict [("result",
            .list [.dict [("id", .int 42), ("name", .str "Bob")]])], []⟩)
        (fun _ r _ => r)
      = ⟨.http 200 (.dict [("id", .int 42), ("name", .str "Bob")]),
         [("res.partner", "create",
           createParamsOf [("name", .str "Bob")]),
          ("res.partner", "read",
           readParamsOf (.int 42) [("name", .str "Bob")])],
         true, false⟩ :=
  C9_create_then_read "res.partner" [("session_id", "s")] "s"
    [("base_url", .str "http://erp"), ("name", .str "Bob")]
    (fun n => if n = 0 then .ok ⟨200, .dict [("result", .int 42)], []⟩
      else .ok ⟨200, .dict [("result",
        .list [.dict [("id", .int 42), ("name", .str "Bob")]])], []⟩)
    (fun _ r _ => r) (.int 42) rfl (by decide) rfl rfl rfl rfl

/-- Claim C6, counterexample: an in-process search_read payload keeps a
many2one value exactly as the ORM returned it (here the `[id, name]` pair
form); it is not expanded to a `{id, name, model}` dict, so the claimed
shaping does not hold for every result payload. -/
theorem C6_counterexample_m2o_not_expanded :
    inprocWrapper "res.partner" "search_read"
        { baseEnv with searchReadFn := (fun _ _ _ _ _ =>
            .ok (.list [.dict [("partner_id", .list [.int 7, .str "Bob"])]])) }
        (.ok (.dict [])) [] (fun _ r _ => r)
      = ⟨.http 200 (.list [.dict [("partner_id", .list [.int 7, .str "Bob"])]]),
         false⟩ ∧
    (Val.list [.int 7, .str "Bob"])
      ≠ .dict [("id", .int 7), ("name", .str "Bob"), ("model", .str "res.partner")] := by
  exact ⟨rfl, fun h => Val.noConfusion h⟩

/-- Claim C6 (amended): result shaping is partial and in-process only.
`handle_images_in_result` base64-encodes truthy bytes values of fields whose
name contains "image" and ISO-formats datetime/date values;
`_convert_field_value` expands a many2one to `{id, name, model}`, but it is
reached only through `_prepare_record_data` (the in-process create and write
response paths); the Django strategy returns the remote result verbatim,
with no shaping at all. -/
theorem C6_amended_result_shaping (f iso : String) (bs : List Nat) (rid : Int)
    (nm rmodel model : String) (cookies : List (String × String)) (sid : String)
    (kvs : List (String × Val)) (v : Val) (cs : List (String × String))
    (tr : Nat → HttpOutcome) (hooks : Nat → Val → Val → Val)
    (hf : strContainsSub "image" f = true) (hbs : bs ≠ [])
    (hlk : lookupStr cookies "session_id" = some sid) (hsid : sid ≠ "")
    (hae : isCallableV ((lookupKV (removeKV (removeKV kvs "base_url")
        "custom_response") "after_execution").getD .null) = false)
    (hcr : isCallableV ((lookupKV (removeKV kvs "base_url")
        "custom_response").getD .null) = false)
    (htr : tr 0 = .ok ⟨200, .dict [("result", v)], cs⟩) :
    handle_images_in_result (.list [.dict [(f, .bytes bs), ("when", .dt iso)]])
        (.list [.str f])
      = .ok (.list [.dict [(f, .str (b64encode bs)), ("when", .str iso)]]) ∧
    convert_field_value (.record rid (some nm) rmodel)
      = .dict [("id", .int rid), ("name", .str nm), ("model", .str rmodel)] ∧
    (djangoWrapper model "read" cookies (.ok (.dict kvs)) tr hooks).resp
      = .http 200 v := by
  refine ⟨?_, rfl, ?_⟩
  · cases bs with
    | nil => exact absurd rfl hbs
    | cons b rest =>
      simp [handle_images_in_result, imageFieldsOf, imageFieldStep, hf,
        handleImagesLoop1, pyFoldM, encodeImageField, lookupKV, truthy, setKV,
        handleImagesLoop2, dtConvertRecord, List.isEmpty]
  · simp [djangoWrapper, getSessionDjango, hlk, hsid, djangoCore,
      djangoStructureParams, htr, call_odoo, hae, hcr, lookupKV]

/-- Claim C6, witness for the amended theorem: an `image_1920` bytes field is
encoded and a datetime is iso-formatted in-process, a many2one expands
through `_convert_field_value`, and a Django read hands a datetime-bearing
remote result through unshaped. -/
theorem C6_amended_result_shaping_witness :
    handle_images_in_result
        (.list [.dict [("image_1920", .bytes [0, 1, 2]), ("when", .dt "2024-05-01")]])
        (.list [.str "image_1920"])
      = .ok (.list [.dict [("image_1920", .str (b64encode [0, 1, 2])),
                           ("when", .str "2024-05-01")]]) ∧
    convert_field_value (.record 7 (some "Bob") "res.partner")
      = .dict [("id", .int 7), ("name", .str "Bob"), ("model", .str "res.partner")] ∧
    (djangoWrapper "res.partner" "read" [("session_id", "s")]
        (.ok (.dict [("base_url", .str "http://erp")]))
        (fun _ => .ok ⟨200, .dict [("result", .dict [("stamp", .dt "2024-01-01")])], []⟩)
        (fun _ r _ => r)).resp
      = .http 200 (.dict [("stamp", .dt "2024-01-01")]) :=
  C6_amended_result_shaping "image_1920" "2024-05-01" [0, 1, 2] 7 "Bob"
    "res.partner" "res.partner" [("session_id", "s")] "s"
    [("base_url", .str "http://erp")] (.dict [("stamp", .dt "2024-01-01")]) []
    (fun _ => .ok ⟨200, .dict [("result", .dict [("stamp", .dt "2024-01-01")])], []⟩)
    (fun _ r _ => r) (by decide) (by decide) rfl (by decide) rfl rfl rfl

/-- Every field name collected by the `image_fields` comprehension contains
the substring "image". -/
theorem imageFieldStep_foldr_sound (xs : List Val) (imgs : List String)
    (h : xs.foldr imageFieldStep (.ok []) = .ok imgs) :
    ∀ f ∈ imgs, strContainsSub "image" f = true := by
  induction xs generalizing imgs with
  | nil =>
    simp only [List.foldr_nil] at h
    injection h with h2
    subst h2
    simp
  | cons v vs ih =>
    simp only [List.foldr_cons] at h
    cases hv : vs.foldr imageFieldStep (.ok []) with
    | raised e =>
      rw [hv] at h
      simp [imageFieldStep] at h
    | ok l =>
      rw [hv] at h
      cases v
      case str s =>
        simp only [imageFieldStep] at h
        by_cases hc : strContainsSub "image" s
        · rw [if_pos hc] at h
          injection h with h2
          subst h2
          intro f hf
          rcases List.mem_cons.mp hf with rfl | hfl
          · exact hc
          · exact ih l hv f hfl
        · rw [if_neg hc] at h
          injection h with h2
          subst h2
          exact ih l hv
      all_goals simp [imageFieldStep] at h

/-- Lifting of `imageFieldStep_foldr_sound` to `imageFieldsOf`. -/
theorem imageFieldsOf_sound (fv : Val) (imgs : List String)
    (h : imageFieldsOf fv = .ok imgs) :
    ∀ f ∈ imgs, strContainsSub "image" f = true := by
  cases fv
  case list xs => exact imageFieldStep_foldr_sound xs imgs h
  all_goals simp [imageFieldsOf] at h

/-- A field name containing "image" is none of the four pagination-envelope
keys, so it is not found in the envelope dict. -/
theorem image_key_not_envelope (f : String) (h : strContainsSub "image" f = true)
    (vr vt vl vo : Val) :
    lookupKV [("records", vr), ("total_count", vt), ("limit", vl), ("offset", vo)] f
      = none := by
  have h1 : ("records" : String) ≠ f := by rintro rfl; revert h; decide
  have h2 : ("total_count" : String) ≠ f := by rintro rfl; revert h; decide
  have h3 : ("limit" : String) ≠ f := by rintro rfl; revert h; decide
  have h4 : ("offset" : String) ≠ f := by rintro rfl; revert h; decide
  simp [lookupKV, h1, h2, h3, h4]

/-- The image-encoding pass leaves a record alone when none of the image
fields occurs in it. -/
theorem pyFoldM_encode_noop (kvs : List (String × Val)) (imgs : List String)
    (h : ∀ f ∈ imgs, lookupKV kvs f = none) :
    pyFoldM encodeImageField kvs imgs = .ok kvs := by
  induction imgs with
  | nil => rfl
  | cons f fs ih =>
    have h1 : lookupKV kvs f = none := h f (List.mem_cons_self f fs)
    have h2 : ∀ g ∈ fs, lookupKV kvs g = none :=
      fun g hg => h g (List.mem_cons_of_mem f hg)
    simp only [pyFoldM, encodeImageField, h1]
    exact ih h2

/-- Claim C7, counterexample: with a truthy limit the in-process search_read
response body is not the pagination envelope dict; `handle_images_in_result`
wraps the envelope into a one-element list. -/
theorem C7_counterexample_envelope_in_list :
    (inprocWrapper "res.partner" "search_read"
        { baseEnv with
            searchReadFn := (fun _ _ _ _ _ => .ok (.list [.dict [("id", .int 1)]])),
            searchCountFn := (fun _ => .ok (.int 7)) }
        (.ok (.dict [("limit", .int 1)])) [] (fun _ r _ => r)).resp
      = .http 200 (.list [.dict [("records", .list [.dict [("id", .int 1)]]),
          ("total_count", .int 7), ("limit", .int 1), ("offset", .int 0)]]) ∧
    (Val.list [.dict [("records", .list [.dict [("id", .int 1)]]),
        ("total_count", .int 7), ("limit", .int 1), ("offset", .int 0)]])
      ≠ .dict [("records", .list [.dict [("id", .int 1)]]),
          ("total_count", .int 7), ("limit", .int 1), ("offset", .int 0)] := by
  exact ⟨rfl, fun h => Val.noConfusion h⟩

/-- Claim C7 (amended): in the in-process strategy a search_read with a
truthy limit builds the pagination envelope `{records, total_count, limit,
offset}` with `total_count = search_count(domain)`, but the response body is
that envelope wrapped in a one-element list (`handle_images_in_result`
normalizes dict results to lists); with a falsy limit the plain record list
(image/datetime-shaped) is the body, with no envelope. -/
theorem C7_amended_search_read_pagination (model : String) (env : OrmEnv)
    (apk : List (String × Val)) (imgs : List String) (shaped : Val)
    (rs rs2 : List Val) (cnt lim : Int) (off : Int)
    (hooks : Nat → Val → Val → Val)
    (himg : imageFieldsOf (Val.getD (.dict apk) "fields" emptyList) = .ok imgs)
    (hae : isCallableV (Val.getD (.dict apk) "after_execution" .null) = false)
    (hcr : isCallableV (Val.getD (.dict apk) "custom_response" .null) = false) :
    (env.searchReadFn (Val.getD (.dict apk) "domain" emptyList)
        (Val.getD (.dict apk) "fields" emptyList)
        (Val.getD (.dict apk) "offset" (.int 0))
        (Val.getD (.dict apk) "limit" .null)
        (Val.getD (.dict apk) "order" .null) = .ok (.list rs) →
      Val.getD (.dict apk) "limit" .null = .int lim → lim ≠ 0 →
      Val.getD (.dict apk) "offset" (.int 0) = .int off →
      env.searchCountFn (Val.getD (.dict apk) "domain" emptyList) = .ok (.int cnt) →
      jsonOk (.list rs) = true →
      inprocWrapper model "search_read" env (.ok (.dict apk)) [] hooks
        = ⟨.http 200 (.list [.dict [("records", .list rs), ("total_count", .int cnt),
            ("limit", .int lim), ("offset", .int off)]]), false⟩) ∧
    (env.searchReadFn (Val.getD (.dict apk) "domain" emptyList)
        (Val.getD (.dict apk) "fields" emptyList)
        (Val.getD (.dict apk) "offset" (.int 0))
        (Val.getD (.dict apk) "limit" .null)
        (Val.getD (.dict apk) "order" .null) = .ok (.list rs2) →
      Val.getD (.dict apk) "limit" .null = .null →
      handle_images_in_result (.list rs2) (Val.getD (.dict apk) "fields" emptyList)
        = .ok shaped →
      jsonOk shaped = true →
      inprocWrapper model "search_read" env (.ok (.dict apk)) [] hooks
        = ⟨.http 200 shaped, false⟩) := by
  constructor
  · intro hsr hlim hl hoff hcnt hjson
    rw [hlim, hoff] at hsr
    have hmem : ∀ f ∈ imgs, strContainsSub "image" f = true :=
      imageFieldsOf_sound _ imgs himg
    have hnoop := pyFoldM_encode_noop
      [("records", .list rs), ("total_count", .int cnt), ("limit", .int lim),
       ("offset", .int off)]
      imgs (fun f hf => image_key_not_envelope f (hmem f hf) _ _ _ _)
    have hjson2 : jsonOkList rs = true := by simpa [jsonOk] using hjson
    simp [inprocWrapper, mergeKV, inprocDispatch, hsr, hlim, hoff, hcnt, truthy,
      hl, handle_images_in_result, himg, handleImagesLoop1, hnoop,
      handleImagesLoop2, dtConvertRecord, hae, hcr, jsonOk, jsonOkList,
      jsonOkKVs, hjson, hjson2, bne_iff_ne]
  · intro hsr2 hlim0 hshape hjs
    rw [hlim0] at hsr2
    simp [inprocWrapper, mergeKV, inprocDispatch, hsr2, hlim0, truthy, hshape,
      hae, hcr, hjs]

/-- Claim C7, witness for the amended theorem: limit 1 gives the wrapped
envelope with total_count 7; a handler without a limit key gives the bare
record list. -/
theorem C7_amended_search_read_pagination_witness :
    inprocWrapper "res.partner" "search_read"
        { baseEnv with
            searchReadFn := (fun _ _ _ _ _ => .ok (.list [.dict [("id", .int 1)]])),
            searchCountFn := (fun _ => .ok (.int 7)) }
        (.ok (.dict [("limit", .int 1)])) [] (fun _ r _ => r)
      = ⟨.http 200 (.list [.dict [("records", .list [.dict [("id", .int 1)]]),
          ("total_count", .int 7), ("limit", .int 1), ("offset", .int 0)]]),
         false⟩ :=
  (C7_amended_search_read_pagination "res.partner"
      { baseEnv with
          searchReadFn := (fun _ _ _ _ _ => .ok (.list [.dict [("id", .int 1)]])),
          searchCountFn := (fun _ => .ok (.int 7)) }
      [("limit", .int 1)] [] .null [.dict [("id", .int 1)]] [] 7 1 0
      (fun _ r _ => r) rfl rfl rfl).1 rfl rfl (by decide) rfl rfl rfl

end OdooRest
